import Mathlib

/-!
Shallow embedding of the two source files of the repository:

* `src/app/api/v0-chat/route.ts` — the chat proxy endpoint (`GET`, `POST`,
  `fetchChatDetail`, `getV0Client`).  The external v0 SDK is modelled as an
  oracle (`V0Sdk`): a record of functions giving, for each SDK operation, the
  outcome (success value or thrown error).  The handlers are then pure
  functions of the environment, the oracle, and the request; each handler
  also returns the list of SDK calls it performed, so that "the handler did
  not call the SDK" is expressible.

* `src/app/components/app-header.tsx` — the header component.  Its React
  state is a record (`HeaderState`), and each event handler / effect branch
  is a state transformer; `HeaderEvent`/`applyEvent` package them as a step
  function for reachability arguments.

JavaScript conventions carried over: an absent or `undefined` string that the
code tests with `!x` or `x || d` is modelled as the empty string (both are
falsy); genuinely optional record fields are `Option`.
-/

/-! ## JSON values and HTTP responses -/

inductive Json where
  | str (s : String)
  | bool (b : Bool)
  | arr (elems : List Json)
  | obj (fields : List (String × Json))

structure HttpResponse where
  status : Nat
  body : Json

/-- JavaScript `x || d` on strings: `undefined` and `""` are both falsy. -/
def jsOr (s d : String) : String := if s = "" then d else s

/-- `leadMatch pat cs` is true iff `pat` is an initial segment of `cs`. -/
def leadMatch : List Char → List Char → Bool
  | [], _ => true
  | _ :: _, [] => false
  | p :: ps, c :: cs => p == c && leadMatch ps cs

def subOccurs (pat : List Char) : List Char → Bool
  | [] => leadMatch pat []
  | c :: cs => leadMatch pat (c :: cs) || subOccurs pat cs

/-- JavaScript `s.includes(pat)`. -/
def jsIncludes (s pat : String) : Bool := subOccurs pat.data s.data

/-! ## v0 SDK data model (route.ts lines 4–23) -/

structure SdkFile where
  name : String
  content : String
  deriving DecidableEq

structure LatestVersion where
  content : Option String
  files : Option (List SdkFile)
  deriving DecidableEq

structure SdkChat where
  id : String
  webUrl : String
  apiUrl : String
  shareable : Bool
  privacy : String
  latestVersion : Option LatestVersion
  deriving DecidableEq

structure SdkMessage where
  id : String
  role : String
  content : String
  createdAt : String
  deriving DecidableEq

/-- Result of `client.chats.findMessages`: `data` may be absent. -/
structure MessagesResponse where
  data : Option (List SdkMessage)
  deriving DecidableEq

/-- A create/sendMessage result is either a `ReadableStream` or a chat object. -/
inductive SdkResponse where
  | stream
  | chat (c : SdkChat)
  deriving DecidableEq

/-- A thrown JavaScript value: an `Error` with a message, or any other value
(for which the handlers substitute a fallback message). -/
inductive Thrown where
  | error (message : String)
  | other
  deriving DecidableEq

/-- `error instanceof Error ? error.message : fallback`. -/
def thrownMessage (fallback : String) : Thrown → String
  | .error m => m
  | .other => fallback

/-- Oracle for the external v0 SDK: outcome of each operation. -/
structure V0Sdk where
  getById : String → Except Thrown SdkChat
  findMessages : String → Nat → Except Thrown MessagesResponse
  create : String → String → String → Except Thrown SdkResponse
  sendMessage : String → String → String → Except Thrown SdkResponse

/-- One SDK invocation, with the arguments it was given. -/
inductive SdkCall where
  | getById (chatId : String)
  | findMessages (chatId : String) (limit : Nat)
  | create (message system responseMode : String)
  | sendMessage (chatId message responseMode : String)
  deriving DecidableEq

/-- Server environment: `process.env.V0_API_KEY`, with `""` for unset
(the code tests it with `!apiKey`, so unset and empty behave alike). -/
structure Env where
  apiKey : String

def missingKeyMsg : String :=
  "V0_API_KEY not configured. Please add it to your .env.local file."

/-- `getV0Client` (route.ts lines 25–31): throws when the key is falsy. -/
def getV0Client (env : Env) : Except Thrown Unit :=
  if env.apiKey = "" then .error (.error missingKeyMsg) else .ok ()

/-! ## ChatDetail and fetchChatDetail (route.ts lines 33–68) -/

structure ChatMessage where
  id : String
  role : String
  content : String
  createdAt : String
  deriving DecidableEq

structure ChatDetail where
  id : String
  webUrl : String
  apiUrl : String
  shareable : Bool
  privacy : String
  latestVersion : Option LatestVersion
  messages : Option (List ChatMessage)
  deriving DecidableEq

def projMessage (m : SdkMessage) : ChatMessage :=
  ⟨m.id, m.role, m.content, m.createdAt⟩

def projLatestVersion (lv : LatestVersion) : LatestVersion :=
  ⟨lv.content, lv.files.map (List.map (fun f => ⟨f.name, f.content⟩))⟩

def fetchChatDetail (env : Env) (sdk : V0Sdk) (chatId : String)
    (includeMessages : Bool) : Except Thrown ChatDetail × List SdkCall :=
  match getV0Client env with
  | .error e => (.error e, [])
  | .ok _ =>
    match sdk.getById chatId with
    | .error e => (.error e, [.getById chatId])
    | .ok chat =>
      let detail : ChatDetail :=
        { id := chat.id
          webUrl := chat.webUrl
          apiUrl := chat.apiUrl
          shareable := chat.shareable
          privacy := chat.privacy
          latestVersion := chat.latestVersion.map projLatestVersion
          messages := none }
      if includeMessages then
        match sdk.findMessages chatId 50 with
        | .error e => (.error e, [.getById chatId, .findMessages chatId 50])
        | .ok mr =>
          (.ok { detail with
                  messages := some ((mr.data.map (List.map projMessage)).getD []) },
           [.getById chatId, .findMessages chatId 50])
      else
        (.ok detail, [.getById chatId])

/-! ## GET handler (route.ts lines 70–93) -/

def messageJson (m : ChatMessage) : Json :=
  .obj [("id", .str m.id), ("role", .str m.role),
        ("content", .str m.content), ("createdAt", .str m.createdAt)]

def fileJson (f : SdkFile) : Json :=
  .obj [("name", .str f.name), ("content", .str f.content)]

def chatIdRequired : HttpResponse :=
  { status := 400
    body := .obj [("error", .str "chatId query parameter is required")] }

/-- Status rule of both catch blocks: 500 when the message mentions
`V0_API_KEY`, else 400. -/
def errorStatus (msg : String) : Nat :=
  if jsIncludes msg "V0_API_KEY" then 500 else 400

/-- The catch block: message extraction, status, `{error}` body. -/
def catchResponse (fallback : String) (e : Thrown) : HttpResponse :=
  let msg := thrownMessage fallback e
  { status := errorStatus msg, body := .obj [("error", .str msg)] }

/-- Body of the GET `try` block.  A `.error` outcome is a thrown exception
that the surrounding `catch` will translate. -/
def GETcore (env : Env) (sdk : V0Sdk) (chatIdParam : Option String) :
    Except Thrown HttpResponse × List SdkCall :=
  match chatIdParam with
  | none => (.ok chatIdRequired, [])
  | some cid =>
    if cid = "" then (.ok chatIdRequired, [])
    else
      match fetchChatDetail env sdk cid true with
      | (.error e, log) => (.error e, log)
      | (.ok d, log) =>
        (.ok { status := 200
               body := .obj
                 [("chatId", .str d.id),
                  ("webUrl", .str d.webUrl),
                  ("apiUrl", .str d.apiUrl),
                  ("shareable", .bool d.shareable),
                  ("privacy", .str d.privacy),
                  ("messages", .arr ((d.messages.getD []).map messageJson))] },
         log)

def GET (env : Env) (sdk : V0Sdk) (chatIdParam : Option String) :
    HttpResponse × List SdkCall :=
  match GETcore env sdk chatIdParam with
  | (.ok r, log) => (r, log)
  | (.error e, log) => (catchResponse "Failed to fetch chat details" e, log)

/-! ## POST handler (route.ts lines 95–168) -/

/-- Parsed POST body `{action, message, chatId, system}`; absent fields are
`""` (all are only tested for falsiness or strict string equality). -/
structure PostBody where
  action : String
  message : String
  chatId : String
  system : String
  deriving DecidableEq

def createStreamRejected : HttpResponse :=
  { status := 400
    body := .obj [("error",
      .str "Streaming response not supported. Please use standard chat creation.")] }

def sendStreamRejected : HttpResponse :=
  { status := 400
    body := .obj [("error",
      .str "Streaming response not supported. Please use standard message sending.")] }

def sendFieldsRequired : HttpResponse :=
  { status := 400
    body := .obj [("error", .str "chatId and message are required for send action")] }

def invalidAction : HttpResponse :=
  { status := 400
    body := .obj [("error", .str "Invalid action. Use \"create\" or \"send\"")] }

/-- `latestVersion?.content || fallback`. -/
def lvContentOr (lv : Option LatestVersion) (fallback : String) : String :=
  jsOr ((lv.bind LatestVersion.content).getD "") fallback

/-- `latestVersion?.files || []`. -/
def lvFiles (lv : Option LatestVersion) : List SdkFile :=
  (lv.bind LatestVersion.files).getD []

/-- Body of the POST `try` block; `bodyResult` is the outcome of
`request.json()`. -/
def POSTcore (env : Env) (sdk : V0Sdk) (bodyResult : Except Thrown PostBody) :
    Except Thrown HttpResponse × List SdkCall :=
  match bodyResult with
  | .error e => (.error e, [])
  | .ok body =>
    match getV0Client env with
    | .error e => (.error e, [])
    | .ok _ =>
      if body.action = "create" then
        let msg := jsOr body.message "Hello!"
        let sys := jsOr body.system "You are a helpful coding assistant."
        match sdk.create msg sys "sync" with
        | .error e => (.error e, [.create msg sys "sync"])
        | .ok .stream => (.ok createStreamRejected, [.create msg sys "sync"])
        | .ok (.chat createdChat) =>
          match fetchChatDetail env sdk createdChat.id false with
          | (.error e, log2) => (.error e, .create msg sys "sync" :: log2)
          | (.ok refreshedChat, log2) =>
            (.ok { status := 200
                   body := .obj
                     [("chatId", .str refreshedChat.id),
                      ("webUrl", .str refreshedChat.webUrl),
                      ("apiUrl", .str refreshedChat.apiUrl),
                      ("shareable", .bool refreshedChat.shareable),
                      ("privacy", .str refreshedChat.privacy),
                      ("message", .str "Chat created successfully"),
                      ("response", .str (lvContentOr refreshedChat.latestVersion
                        "Chat created successfully")),
                      ("files", .arr ((lvFiles refreshedChat.latestVersion).map fileJson))] },
             .create msg sys "sync" :: log2)
      else if body.action = "send" then
        if body.chatId = "" ∨ body.message = "" then
          (.ok sendFieldsRequired, [])
        else
          match sdk.sendMessage body.chatId body.message "sync" with
          | .error e => (.error e, [.sendMessage body.chatId body.message "sync"])
          | .ok .stream =>
            (.ok sendStreamRejected, [.sendMessage body.chatId body.message "sync"])
          | .ok (.chat chatDetail) =>
            (.ok { status := 200
                   body := .obj
                     [("success", .bool true),
                      ("response", .str (lvContentOr chatDetail.latestVersion
                        "Message sent successfully")),
                      ("files", .arr ((lvFiles chatDetail.latestVersion).map fileJson))] },
             [.sendMessage body.chatId body.message "sync"])
      else
        (.ok invalidAction, [])

def POST (env : Env) (sdk : V0Sdk) (bodyResult : Except Thrown PostBody) :
    HttpResponse × List SdkCall :=
  match POSTcore env sdk bodyResult with
  | (.ok r, log) => (r, log)
  | (.error e, log) => (catchResponse "Failed to process chat request" e, log)

/-! ## Header component state (app-header.tsx) -/

structure SessionUser where
  id : String
  username : String
  email : Option String
  name : Option String
  avatar : Option String
  deriving DecidableEq

structure SessionInfo where
  user : Option SessionUser
  authProvider : Option String
  deriving DecidableEq

structure GitHubStatusResponse where
  connected : Bool
  username : Option String
  connectedAt : Option String
  deriving DecidableEq

structure GithubConnection where
  connected : Bool
  username : Option String
  connectedAt : Option String
  deriving DecidableEq

structure Selection where
  owner : String
  repo : String
  branch : String
  deriving DecidableEq

inductive PushStatus where
  | idle
  | loading
  | success
  | error
  deriving DecidableEq

structure PushState where
  status : PushStatus
  message : Option String
  deriving DecidableEq

structure HeaderState where
  session : Option SessionInfo
  sessionLoading : Bool
  statusLoading : Bool
  pushState : PushState
  selection : Option Selection
  githubConnection : GithubConnection
  githubConnectionInitialized : Bool
  branchInput : String
  commitMessage : String
  deriving DecidableEq

/-- `selection?.branch ?? "main"` (app-header.tsx line 41). -/
def selectedBranch (s : HeaderState) : String :=
  (s.selection.map Selection.branch).getD "main"

/-- `fetchGitHubStatus`, successful fetch of `data` (lines 78–94): store the
connection, clear the selection when not connected; the `finally` clause
ends the loading state and marks initialization. -/
def applyStatusSuccess (d : GitHubStatusResponse) (s : HeaderState) : HeaderState :=
  { s with
    githubConnection := ⟨d.connected, d.username, d.connectedAt⟩
    selection := if d.connected then s.selection else none
    statusLoading := false
    githubConnectionInitialized := true }

/-- `fetchGitHubStatus`, catch branch (lines 95–99) plus the `finally`. -/
def applyStatusFailure (s : HeaderState) : HeaderState :=
  { s with
    githubConnection := ⟨false, none, none⟩
    selection := none
    statusLoading := false
    githubConnectionInitialized := true }

/-- Session effect when `session?.user` is absent (lines 110–117). -/
def applySessionLost (s : HeaderState) : HeaderState :=
  { s with
    session := none
    githubConnection := ⟨false, none, none⟩
    selection := none
    statusLoading := false
    githubConnectionInitialized := true }

/-- `handleSignOut`, success path before navigation (lines 212–221). -/
def applySignOutSuccess (s : HeaderState) : HeaderState :=
  { s with
    selection := none
    githubConnection := ⟨false, none, none⟩ }

/-- `handleOwnerChange` (lines 136–151).  An empty owner clears the selection
and returns early; otherwise the owner is set, the repo reset to `""`, the
branch kept (default "main"), and the push state reset. -/
def handleOwnerChange (owner : String) (s : HeaderState) : HeaderState :=
  if owner = "" then
    { s with selection := none }
  else
    { s with
      selection := some ⟨owner, "", (s.selection.map Selection.branch).getD "main"⟩
      pushState := ⟨.idle, none⟩ }

/-- `handleRepoChange` (lines 153–170).  An empty repo blanks the repo of an
existing selection and returns early; otherwise the repo is only stored when
the current selection has an owner, and the push state is reset. -/
def handleRepoChange (repo : String) (s : HeaderState) : HeaderState :=
  if repo = "" then
    { s with selection := s.selection.map (fun p => { p with repo := "" }) }
  else
    { s with
      selection :=
        match s.selection with
        | none => none
        | some p => if p.owner = "" then some p else some { p with repo := repo }
      pushState := ⟨.idle, none⟩ }

/-- `handleBranchInputChange` (lines 172–186): an empty input becomes
"main"; push state resets; an existing selection's branch is updated. -/
def handleBranchInputChange (raw : String) (s : HeaderState) : HeaderState :=
  let value := jsOr raw "main"
  { s with
    branchInput := value
    pushState := ⟨.idle, none⟩
    selection := s.selection.map (fun p => { p with branch := value }) }

/-- Commit-message `onChange` (lines 362–365). -/
def handleCommitMessageChange (v : String) (s : HeaderState) : HeaderState :=
  { s with commitMessage := v, pushState := ⟨.idle, none⟩ }

def applyPushStart (s : HeaderState) : HeaderState :=
  { s with pushState := ⟨.loading, none⟩ }

def applyPushSuccess (m : String) (s : HeaderState) : HeaderState :=
  { s with pushState := ⟨.success, some m⟩ }

def applyPushFailed (m : String) (s : HeaderState) : HeaderState :=
  { s with pushState := ⟨.error, some m⟩ }

/-- One step of the header's state machine: every code path of the component
that writes the atoms or the local state. -/
inductive HeaderEvent where
  | statusSuccess (d : GitHubStatusResponse)
  | statusFailure
  | sessionLost
  | signOutSuccess
  | ownerChange (owner : String)
  | repoChange (repo : String)
  | branchInputChange (value : String)
  | commitMessageChange (value : String)
  | pushStart
  | pushSuccess (message : String)
  | pushFailed (message : String)

def applyEvent : HeaderEvent → HeaderState → HeaderState
  | .statusSuccess d, s => applyStatusSuccess d s
  | .statusFailure, s => applyStatusFailure s
  | .sessionLost, s => applySessionLost s
  | .signOutSuccess, s => applySignOutSuccess s
  | .ownerChange o, s => handleOwnerChange o s
  | .repoChange r, s => handleRepoChange r s
  | .branchInputChange v, s => handleBranchInputChange v s
  | .commitMessageChange v, s => handleCommitMessageChange v s
  | .pushStart, s => applyPushStart s
  | .pushSuccess m, s => applyPushSuccess m s
  | .pushFailed m, s => applyPushFailed m s

def runEvents (es : List HeaderEvent) (s : HeaderState) : HeaderState :=
  es.foldl (fun st e => applyEvent e st) s

/-- Request body of `handlePushToGitHub` (lines 228–245); `none` when the
guard `!selection?.owner || !selection.repo` returns early. -/
structure PushRequestBody where
  owner : String
  repo : String
  branch : String
  commitMessage : String
  deriving DecidableEq

def pushRequestBody (s : HeaderState) : Option PushRequestBody :=
  match s.selection with
  | none => none
  | some sel =>
    if sel.owner = "" ∨ sel.repo = "" then none
    else
      some ⟨sel.owner, sel.repo, jsOr s.branchInput "main",
            jsOr s.commitMessage.trim "Sync from Shopify Data Generator"⟩

/-- "A non-empty repo implies a non-empty owner" for a selection value. -/
def RepoImpliesOwner (sel : Option Selection) : Prop :=
  ∀ p, sel = some p → p.repo ≠ "" → p.owner ≠ ""

/-! ## Concrete instances used by witnesses and counterexamples -/

/-- An SDK oracle whose every operation fails with a non-Error value. -/
def sdkStub : V0Sdk :=
  { getById := fun _ => .error .other
    findMessages := fun _ _ => .error .other
    create := fun _ _ _ => .error .other
    sendMessage := fun _ _ _ => .error .other }

def chatW : SdkChat :=
  { id := "chat-1"
    webUrl := "https://v0.dev/chat/chat-1"
    apiUrl := "https://api.v0.dev/chats/chat-1"
    shareable := true
    privacy := "private"
    latestVersion := none }

def mrW : MessagesResponse := ⟨none⟩

/-- Oracle where both lookups succeed (and the messages payload is absent). -/
def sdkW : V0Sdk :=
  { getById := fun _ => .ok chatW
    findMessages := fun _ _ => .ok mrW
    create := fun _ _ _ => .error .other
    sendMessage := fun _ _ _ => .error .other }

/-- Oracle whose create operation yields a streaming response. -/
def sdkStreamW : V0Sdk :=
  { sdkStub with create := fun _ _ _ => .ok .stream }

/-- Oracle whose getById fails with an Error message mentioning V0_API_KEY
even though the key is configured. -/
def sdkKeyRejected : V0Sdk :=
  { sdkStub with
    getById := fun _ => .error (.error "Upstream rejected the V0_API_KEY token") }

/-! ## Theorems about the chat proxy endpoint -/

/-- C4: a GET request whose query string has no chatId parameter gets the
400 response with a JSON error body, and the SDK call log is empty, so no
external SDK operation was invoked. -/
theorem get_missing_chatId (env : Env) (sdk : V0Sdk) :
    GET env sdk none =
      ({ status := 400
         body := .obj [("error", .str "chatId query parameter is required")] }, []) :=
  rfl

/-- C1: a GET request with a non-empty chatId, a configured key, and both
SDK calls succeeding returns status 200 and a flattened object with exactly
the fields chatId, webUrl, apiUrl, shareable, privacy, messages; the message
list is fetched with limit 50, each message projected to id, role, content,
createdAt, and is the empty array when the SDK returns no message data. -/
theorem get_success_shape (env : Env) (sdk : V0Sdk) (cid : String)
    (chat : SdkChat) (mr : MessagesResponse)
    (hcid : cid ≠ "") (hkey : env.apiKey ≠ "")
    (hget : sdk.getById cid = .ok chat)
    (hfind : sdk.findMessages cid 50 = .ok mr) :
    GET env sdk (some cid) =
      ({ status := 200
         body := .obj
           [("chatId", .str chat.id),
            ("webUrl", .str chat.webUrl),
            ("apiUrl", .str chat.apiUrl),
            ("shareable", .bool chat.shareable),
            ("privacy", .str chat.privacy),
            ("messages", .arr ((mr.data.getD []).map fun m =>
              messageJson (projMessage m)))] },
       [.getById cid, .findMessages cid 50]) := by
  unfold GET GETcore fetchChatDetail getV0Client
  simp only [hcid, hkey, hget, hfind, if_neg, ite_false, if_false]
  simp [hcid, hkey]
  cases mr.data <;> simp

theorem get_success_shape_witness :
    GET ⟨"k"⟩ sdkW (some "chat-1") =
      ({ status := 200
         body := .obj
           [("chatId", .str "chat-1"),
            ("webUrl", .str "https://v0.dev/chat/chat-1"),
            ("apiUrl", .str "https://api.v0.dev/chats/chat-1"),
            ("shareable", .bool true),
            ("privacy", .str "private"),
            ("messages", .arr [])] },
       [.getById "chat-1", .findMessages "chat-1" 50]) := by
  have h := get_success_shape ⟨"k"⟩ sdkW "chat-1" chatW mrW
    (by decide) (by decide) rfl rfl
  simpa [chatW, mrW] using h

/-- Helper: the wrapped handler keeps the call log of its try block. -/
theorem POST_log (env : Env) (sdk : V0Sdk) (br : Except Thrown PostBody) :
    (POST env sdk br).2 = (POSTcore env sdk br).2 := by
  unfold POST
  rcases h : POSTcore env sdk br with ⟨r, log⟩
  cases r <;> simp

/-- C2 counterexample: with a configured key, an SDK failure whose Error
message merely mentions V0_API_KEY is returned with status 500, although it
is not the missing-key configuration error (which cannot occur here, the
key being non-empty); so 500 is not equivalent to the configuration error. -/
theorem get_500_without_missing_key :
    (GET ⟨"configured-key"⟩ sdkKeyRejected (some "c")).1.status = 500 ∧
    GETcore ⟨"configured-key"⟩ sdkKeyRejected (some "c") =
      (.error (.error "Upstream rejected the V0_API_KEY token"), [.getById "c"]) ∧
    Thrown.error "Upstream rejected the V0_API_KEY token" ≠ .error missingKeyMsg ∧
    ("configured-key" : String) ≠ "" := by
  refine ⟨?_, rfl, by decide, by decide⟩
  rfl

/-- C2 (amended): every exception thrown inside the GET or POST try block is
caught and surfaced as a JSON object with a single error field, with status
500 exactly when the extracted message contains the substring V0_API_KEY
(as the missing-key configuration message does), and 400 otherwise. -/
theorem route_errors_caught (env : Env) (sdk : V0Sdk) (p : Option String)
    (br : Except Thrown PostBody) (e e' : Thrown) (lg lp : List SdkCall) :
    (GETcore env sdk p = (.error e, lg) →
      GET env sdk p =
        ({ status := if jsIncludes (thrownMessage "Failed to fetch chat details" e)
              "V0_API_KEY" then 500 else 400
           body := .obj [("error",
             .str (thrownMessage "Failed to fetch chat details" e))] }, lg)) ∧
    (POSTcore env sdk br = (.error e', lp) →
      POST env sdk br =
        ({ status := if jsIncludes (thrownMessage "Failed to process chat request" e')
              "V0_API_KEY" then 500 else 400
           body := .obj [("error",
             .str (thrownMessage "Failed to process chat request" e'))] }, lp)) := by
  constructor
  · intro h
    unfold GET
    rw [h]
    rfl
  · intro h
    unfold POST
    rw [h]
    rfl

theorem route_errors_caught_witness :
    GET ⟨""⟩ sdkStub (some "c") =
      ({ status := if jsIncludes missingKeyMsg "V0_API_KEY" then 500 else 400
         body := .obj [("error", .str missingKeyMsg)] }, []) ∧
    (if jsIncludes missingKeyMsg "V0_API_KEY" then (500 : Nat) else 400) = 500 :=
  ⟨(route_errors_caught ⟨""⟩ sdkStub (some "c") (.ok ⟨"send", "", "", ""⟩)
      (.error missingKeyMsg) .other [] []).1 rfl,
   by decide⟩

/-- C3 counterexample: a send request missing both chatId and message, sent
while V0_API_KEY is not configured, is answered with status 500 (the
missing-key error thrown by getV0Client before the validation), not 400 as
the claim states; no SDK operation is invoked. -/
theorem send_missing_fields_500_counterexample :
    POST ⟨""⟩ sdkStub (.ok ⟨"send", "", "", ""⟩) =
      ({ status := 500, body := .obj [("error", .str missingKeyMsg)] }, []) ∧
    (500 : Nat) ≠ 400 := by
  refine ⟨?_, by decide⟩
  rfl

/-- C3 (amended): provided V0_API_KEY is configured, a parsed send request
in which chatId or message is absent or empty gets the 400 validation
response, and the empty call log shows no SDK operation (in particular no
sendMessage) was invoked. -/
theorem send_missing_fields_400 (env : Env) (sdk : V0Sdk) (b : PostBody)
    (hkey : env.apiKey ≠ "") (ha : b.action = "send")
    (hmiss : b.chatId = "" ∨ b.message = "") :
    POST env sdk (.ok b) = (sendFieldsRequired, []) ∧
    sendFieldsRequired.status = 400 := by
  refine ⟨?_, rfl⟩
  unfold POST POSTcore getV0Client
  simp [hkey, ha, hmiss]

theorem send_missing_fields_400_witness :
    POST ⟨"k"⟩ sdkStub (.ok ⟨"send", "", "c7", ""⟩) = (sendFieldsRequired, []) ∧
    sendFieldsRequired.status = 400 :=
  send_missing_fields_400 ⟨"k"⟩ sdkStub ⟨"send", "", "c7", ""⟩
    (by decide) rfl (Or.inr rfl)

/-- C5: with a configured key and a parsed body, whenever the SDK answers a
create action or a (validated) send action with a streaming response, the
handler returns the 400 rejection saying streaming is not supported. -/
theorem streaming_rejected (env : Env) (sdk : V0Sdk) (b : PostBody)
    (hkey : env.apiKey ≠ "") :
    (b.action = "create" →
      sdk.create (jsOr b.message "Hello!")
        (jsOr b.system "You are a helpful coding assistant.") "sync" = .ok .stream →
      (POST env sdk (.ok b)).1 = createStreamRejected) ∧
    (b.action = "send" → b.chatId ≠ "" → b.message ≠ "" →
      sdk.sendMessage b.chatId b.message "sync" = .ok .stream →
      (POST env sdk (.ok b)).1 = sendStreamRejected) ∧
    createStreamRejected.status = 400 ∧ sendStreamRejected.status = 400 := by
  refine ⟨fun ha hc => ?_, fun ha hcid hm hs => ?_, rfl, rfl⟩
  · unfold POST POSTcore getV0Client
    simp [hkey, ha, hc]
  · unfold POST POSTcore getV0Client
    simp [hkey, ha, hcid, hm, hs]

theorem streaming_rejected_witness :
    (POST ⟨"k"⟩ sdkStreamW (.ok ⟨"create", "", "", ""⟩)).1 = createStreamRejected ∧
    createStreamRejected.status = 400 :=
  ⟨(streaming_rejected ⟨"k"⟩ sdkStreamW ⟨"create", "", "", ""⟩ (by decide)).1 rfl rfl,
   rfl⟩

/-- C6: with a configured key, a create action whose message and system
fields are absent or empty leads to an SDK create call whose arguments are
the defaults Hello! and the helpful-coding-assistant system text, with
responseMode sync (the call heads the SDK call log on every create path). -/
theorem create_defaults_sync (env : Env) (sdk : V0Sdk) (b : PostBody)
    (hkey : env.apiKey ≠ "") (ha : b.action = "create")
    (hm : b.message = "") (hs : b.system = "") :
    ∃ rest, (POST env sdk (.ok b)).2 =
      .create "Hello!" "You are a helpful coding assistant." "sync" :: rest := by
  rw [POST_log]
  unfold POSTcore getV0Client
  simp only [hkey, ha, hm, hs]
  cases hc : sdk.create (jsOr "" "Hello!")
      (jsOr "" "You are a helpful coding assistant.") "sync" with
  | error e => simp [hkey, hc, jsOr]
  | ok r =>
    cases r with
    | stream => simp [hkey, hc, jsOr]
    | chat c =>
      rcases hf : fetchChatDetail env sdk c.id false with ⟨res, log2⟩
      cases res <;> simp [hkey, hc, hf, jsOr]

theorem create_defaults_sync_witness :
    ∃ rest, (POST ⟨"k"⟩ sdkStreamW (.ok ⟨"create", "", "", ""⟩)).2 =
      .create "Hello!" "You are a helpful coding assistant." "sync" :: rest :=
  create_defaults_sync ⟨"k"⟩ sdkStreamW ⟨"create", "", "", ""⟩ (by decide) rfl rfl rfl

/-! ## Theorems about the header component -/

/-- A header state with an active selection and a non-idle push state. -/
def headerStateW : HeaderState :=
  { session := some ⟨some ⟨"u1", "octocat", none, none, none⟩, some "vercel"⟩
    sessionLoading := false
    statusLoading := false
    pushState := ⟨.success, some "Pushed changes to GitHub."⟩
    selection := some ⟨"octocat", "hello-world", "main"⟩
    githubConnection := ⟨true, some "octocat", none⟩
    githubConnectionInitialized := true
    branchInput := "main"
    commitMessage := "Sync from Shopify Data Generator" }

/-- A header state with no selection and an empty branch input. -/
def headerStateEmptyW : HeaderState :=
  { session := none
    sessionLoading := false
    statusLoading := false
    pushState := ⟨.idle, none⟩
    selection := none
    githubConnection := ⟨false, none, none⟩
    githubConnectionInitialized := true
    branchInput := ""
    commitMessage := "Sync from Shopify Data Generator" }

/-- C7: every transition that makes the GitHub status disconnected — a
status response with connected = false, a status fetch failure, or session
loss — and every completed sign-out leaves the repository selection cleared
in that same step. -/
theorem disconnect_clears_selection (s : HeaderState) (d : GitHubStatusResponse) :
    (d.connected = false → (applyStatusSuccess d s).selection = none) ∧
    (applyStatusFailure s).selection = none ∧
    (applySessionLost s).selection = none ∧
    (applySignOutSuccess s).selection = none := by
  refine ⟨fun h => ?_, rfl, rfl, rfl⟩
  simp [applyStatusSuccess, h]

theorem disconnect_clears_selection_witness :
    (applyStatusSuccess ⟨false, none, none⟩ headerStateW).selection = none :=
  (disconnect_clears_selection headerStateW ⟨false, none, none⟩).1 rfl

/-- Helper: one header step preserves "non-empty repo implies non-empty
owner" of the selection. -/
theorem applyEvent_repoOwner (e : HeaderEvent) (s : HeaderState)
    (h : RepoImpliesOwner s.selection) :
    RepoImpliesOwner ((applyEvent e s).selection) := by
  cases e with
  | statusSuccess d =>
    intro p hp hr
    by_cases hc : d.connected
    · exact h p (by simpa [applyEvent, applyStatusSuccess, hc] using hp) hr
    · simp [applyEvent, applyStatusSuccess, hc] at hp
  | statusFailure => intro p hp hr; simp [applyEvent, applyStatusFailure] at hp
  | sessionLost => intro p hp hr; simp [applyEvent, applySessionLost] at hp
  | signOutSuccess => intro p hp hr; simp [applyEvent, applySignOutSuccess] at hp
  | ownerChange o =>
    intro p hp hr
    by_cases ho : o = ""
    · simp [applyEvent, handleOwnerChange, ho] at hp
    · simp [applyEvent, handleOwnerChange, ho] at hp
      rw [← hp] at hr
      simp at hr
  | repoChange r =>
    intro p hp hr
    by_cases hrr : r = ""
    · simp [applyEvent, handleRepoChange, hrr] at hp
      rcases hp with ⟨q, hq, hpq⟩
      rw [← hpq] at hr
      simp at hr
    · simp [applyEvent, handleRepoChange, hrr] at hp
      rcases hsel : s.selection with _ | q
      · rw [hsel] at hp; simp at hp
      · rw [hsel] at hp
        by_cases hq : q.owner = ""
        · simp [hq] at hp
          rw [← hp] at hr
          exact absurd hq (h q hsel hr)
        · simp [hq] at hp
          rw [← hp] at hr ⊢
          simpa using hq
  | branchInputChange v =>
    intro p hp hr
    simp [applyEvent, handleBranchInputChange] at hp
    rcases hp with ⟨q, hq, hpq⟩
    rw [← hpq] at hr ⊢
    simpa using h q hq (by simpa using hr)
  | commitMessageChange v => exact fun p hp hr => h p hp hr
  | pushStart => exact fun p hp hr => h p hp hr
  | pushSuccess m => exact fun p hp hr => h p hp hr
  | pushFailed m => exact fun p hp hr => h p hp hr

/-- C8: a repo change with a non-empty repo leaves the selection unchanged
when the current selection has no owner; an owner change always leaves the
selection with an empty repo; and every sequence of header events preserves
"non-empty repo implies non-empty owner" of the selection. -/
theorem selection_repo_requires_owner (s : HeaderState) (owner repo : String)
    (es : List HeaderEvent) :
    (repo ≠ "" → (s.selection.map Selection.owner).getD "" = "" →
      (handleRepoChange repo s).selection = s.selection) ∧
    ((handleOwnerChange owner s).selection.map Selection.repo).getD "" = "" ∧
    (RepoImpliesOwner s.selection → RepoImpliesOwner ((runEvents es s).selection)) := by
  refine ⟨fun hr ho => ?_, ?_, fun h => ?_⟩
  · unfold handleRepoChange
    rw [if_neg hr]
    rcases hsel : s.selection with _ | q
    · simp [hsel]
    · have hq : q.owner = "" := by simpa [hsel] using ho
      simp [hsel, hq]
  · by_cases ho : owner = "" <;> simp [handleOwnerChange, ho]
  · induction es generalizing s with
    | nil => exact h
    | cons e es ih => exact ih (applyEvent e s) (applyEvent_repoOwner e s h)

theorem selection_repo_requires_owner_witness :
    (handleRepoChange "hello-world" headerStateEmptyW).selection =
      headerStateEmptyW.selection ∧
    ((handleOwnerChange "octocat" headerStateEmptyW).selection.map
      Selection.repo).getD "" = "" ∧
    RepoImpliesOwner ((runEvents [HeaderEvent.ownerChange "octocat",
      HeaderEvent.repoChange "hello-world"] headerStateEmptyW).selection) :=
  ⟨(selection_repo_requires_owner headerStateEmptyW "octocat" "hello-world" []).1
      (by decide) rfl,
   (selection_repo_requires_owner headerStateEmptyW "octocat" "hello-world" []).2.1,
   (selection_repo_requires_owner headerStateEmptyW "octocat" "hello-world"
      [HeaderEvent.ownerChange "octocat", HeaderEvent.repoChange "hello-world"]).2.2
      (by intro p hp hr; simp [headerStateEmptyW] at hp)⟩

/-- C9 counterexample: clearing the owner (or the repo) through the selector
is a field edit with the empty value, and it returns early without touching
the push state: from a state whose push state is success, it stays success,
not idle. -/
theorem push_not_reset_counterexample :
    (applyEvent (.ownerChange "") headerStateW).pushState.status = .success ∧
    (applyEvent (.repoChange "") headerStateW).pushState.status = .success ∧
    PushStatus.success ≠ .idle := by
  refine ⟨rfl, rfl, by decide⟩

/-- C9 (amended): every field edit resets the push state to idle, except an
owner change or a repo change with the empty value, whose early return
leaves the push state unchanged. -/
theorem field_edit_resets_push (s : HeaderState) (v : String) :
    (v ≠ "" → (handleOwnerChange v s).pushState = ⟨.idle, none⟩) ∧
    (v ≠ "" → (handleRepoChange v s).pushState = ⟨.idle, none⟩) ∧
    (handleBranchInputChange v s).pushState = ⟨.idle, none⟩ ∧
    (handleCommitMessageChange v s).pushState = ⟨.idle, none⟩ ∧
    (handleOwnerChange "" s).pushState = s.pushState ∧
    (handleRepoChange "" s).pushState = s.pushState := by
  refine ⟨fun h => ?_, fun h => ?_, rfl, rfl, ?_, ?_⟩
  · simp [handleOwnerChange, h]
  · simp [handleRepoChange, h]
  · simp [handleOwnerChange]
  · simp [handleRepoChange]

theorem field_edit_resets_push_witness :
    (handleOwnerChange "octocat" headerStateW).pushState = ⟨.idle, none⟩ ∧
    (handleRepoChange "hello-world" headerStateW).pushState = ⟨.idle, none⟩ :=
  ⟨(field_edit_resets_push headerStateW "octocat").1 (by decide),
   (field_edit_resets_push headerStateW "hello-world").2.1 (by decide)⟩

/-- State with an active selection but an empty branch input. -/
def headerStatePushW : HeaderState :=
  { headerStateW with branchInput := "" }

def pushBodyW : PushRequestBody :=
  ⟨"octocat", "hello-world", jsOr "" "main",
   jsOr ("Sync from Shopify Data Generator".trim) "Sync from Shopify Data Generator"⟩

/-- C10: the branch input after an edit is the edited value with "" replaced
by "main", hence never empty; with no selection the selected branch defaults
to "main"; and when the branch input is empty, the push request body built
by handlePushToGitHub carries branch "main". -/
theorem branch_never_empty (s : HeaderState) (raw : String) (b : PushRequestBody) :
    (handleBranchInputChange raw s).branchInput = jsOr raw "main" ∧
    jsOr raw "main" ≠ "" ∧
    (s.selection = none → selectedBranch s = "main") ∧
    (s.branchInput = "" → pushRequestBody s = some b → b.branch = "main") := by
  refine ⟨rfl, ?_, fun h => by simp [selectedBranch, h], fun hb hpb => ?_⟩
  · by_cases hr : raw = "" <;> simp [jsOr, hr]
  · unfold pushRequestBody at hpb
    rcases hsel : s.selection with _ | sel
    · rw [hsel] at hpb; simp at hpb
    · rw [hsel] at hpb
      by_cases hg : sel.owner = "" ∨ sel.repo = ""
      · simp [hg] at hpb
      · simp [hg] at hpb
        rw [← hpb]
        simp [hb, jsOr]

theorem branch_never_empty_witness :
    (handleBranchInputChange "" headerStatePushW).branchInput = jsOr "" "main" ∧
    jsOr "" "main" ≠ "" ∧
    selectedBranch headerStateEmptyW = "main" ∧
    pushBodyW.branch = "main" :=
  ⟨(branch_never_empty headerStatePushW "" pushBodyW).1,
   (branch_never_empty headerStatePushW "" pushBodyW).2.1,
   (branch_never_empty headerStateEmptyW "" pushBodyW).2.2.1 rfl,
   (branch_never_empty headerStatePushW "" pushBodyW).2.2.2 rfl rfl⟩
